import Mathlib

/-
Verification of the AI4I-2020 data-curation pipeline.

Shallow embedding of the repository sources:
  scripts/load_data.py       (DataLoader.validate_structure, main.py gate)
  scripts/transform_data.py  (DataTransformer: detect_outliers,
                              normalize_features, compute_derived_features)
  scripts/export_data.py     (DataExporter.calculate_checksum, export_csv, ...)
  scripts/log_provenance.py  (ProvenanceLogger)

Modelling conventions:
  - pandas DataFrames become finite association lists of named, typed columns;
  - float64 arithmetic is idealised as exact rational arithmetic; the
    constant numpy.pi is modelled by the exact rational value of the IEEE-754
    double it denotes;
  - numpy.sqrt is modelled by an executable rational approximation that is
    exact on perfect squares (no claim below depends on its value);
  - wall-clock timestamps are passed in explicitly as a parameter named now;
  - Python exceptions become an explicit error type returned via Except,
    paired with the post-call object state;
  - the file system seen by the exporter is an association list from paths
    to byte lists; hashlib hash objects are modelled functionally by the
    byte sequence absorbed so far, with hexdigest the full SHA-256 of it.
-/

/-! Chunked reading.  Models iterating f.read(4096) until the empty chunk,
    and also the 64-byte block splitting inside SHA-256.  Defined with an
    explicit fuel argument (the list length) so that it reduces in the
    kernel. -/

def chunksOfAux (k : Nat) : Nat → List Nat → List (List Nat)
  | 0, _ => []
  | _, [] => []
  | fuel+1, l => l.take k :: chunksOfAux k fuel (l.drop k)

def chunksOf (k : Nat) (l : List Nat) : List (List Nat) :=
  chunksOfAux k l.length l

/-! SHA-256, translated from the FIPS 180-4 algorithm that hashlib.sha256
    implements.  Bytes and 32-bit words are natural numbers reduced mod
    2 to the 32 where overflow matters. -/

def w32 : Nat := 4294967296

def rotr32 (n x : Nat) : Nat := ((x >>> n) ||| (x <<< (32 - n))) % w32

def bsig0 (x : Nat) : Nat := rotr32 2 x ^^^ rotr32 13 x ^^^ rotr32 22 x
def bsig1 (x : Nat) : Nat := rotr32 6 x ^^^ rotr32 11 x ^^^ rotr32 25 x
def ssig0 (x : Nat) : Nat := rotr32 7 x ^^^ rotr32 18 x ^^^ (x >>> 3)
def ssig1 (x : Nat) : Nat := rotr32 17 x ^^^ rotr32 19 x ^^^ (x >>> 10)

def chFn (x y z : Nat) : Nat := (x &&& y) ^^^ ((x ^^^ 4294967295) &&& z)
def majFn (x y z : Nat) : Nat := (x &&& y) ^^^ (x &&& z) ^^^ (y &&& z)

def sha256K : List Nat :=
  [1116352408, 1899447441, 3049323471, 3921009573, 961987163,
   1508970993, 2453635748, 2870763221, 3624381080, 310598401,
   607225278, 1426881987, 1925078388, 2162078206, 2614888103,
   3248222580, 3835390401, 4022224774, 264347078, 604807628,
   770255983, 1249150122, 1555081692, 1996064986, 2554220882,
   2821834349, 2952996808, 3210313671, 3336571891, 3584528711,
   113926993, 338241895, 666307205, 773529912, 1294757372,
   1396182291, 1695183700, 1986661051, 2177026350, 2456956037,
   2730485921, 2820302411, 3259730800, 3345764771, 3516065817,
   3600352804, 4094571909, 275423344, 430227734, 506948616,
   659060556, 883997877, 958139571, 1322822218, 1537002063,
   1747873779, 1955562222, 2024104815, 2227730452, 2361852424,
   2428436474, 2756734187, 3204031479, 3329325298]

def sha256H0 : List Nat :=
  [1779033703, 3144134277, 1013904242, 2773480762,
   1359893119, 2600822924, 528734635, 1541459225]

def be64 (n : Nat) : List Nat :=
  [(n >>> 56) % 256, (n >>> 48) % 256, (n >>> 40) % 256, (n >>> 32) % 256,
   (n >>> 24) % 256, (n >>> 16) % 256, (n >>> 8) % 256, n % 256]

def padMessage (msg : List Nat) : List Nat :=
  let z := (120 - ((msg.length + 1) % 64)) % 64
  msg ++ [0x80] ++ List.replicate z 0 ++ be64 (8 * msg.length)

def word32OfBytes (c : List Nat) : Nat := c.foldl (fun acc b => acc * 256 + b) 0

def msgSchedule (block : List Nat) : List Nat :=
  let w16 := (chunksOf 4 block).map word32OfBytes
  (List.range 48).foldl
    (fun w _ =>
      let n := w.length
      let t := (ssig1 (w.getD (n - 2) 0) + w.getD (n - 7) 0 +
                ssig0 (w.getD (n - 15) 0) + w.getD (n - 16) 0) % w32
      w ++ [t]) w16

def sha256Round (w : List Nat) (st : List Nat) (i : Nat) : List Nat :=
  let a := st.getD 0 0
  let b := st.getD 1 0
  let c := st.getD 2 0
  let d := st.getD 3 0
  let e := st.getD 4 0
  let f := st.getD 5 0
  let g := st.getD 6 0
  let h := st.getD 7 0
  let t1 := (h + bsig1 e + chFn e f g + sha256K.getD i 0 + w.getD i 0) % w32
  let t2 := (bsig0 a + majFn a b c) % w32
  [(t1 + t2) % w32, a, b, c, (d + t1) % w32, e, f, g]

def sha256Compress (h : List Nat) (block : List Nat) : List Nat :=
  let w := msgSchedule block
  let st := (List.range 64).foldl (sha256Round w) h
  List.zipWith (fun x y => (x + y) % w32) h st

def sha256Words (msg : List Nat) : List Nat :=
  (chunksOf 64 (padMessage msg)).foldl sha256Compress sha256H0

def hexDigit (n : Nat) : Char :=
  if n < 10 then Char.ofNat (48 + n) else Char.ofNat (87 + n)

def hexWord32 (n : Nat) : String :=
  String.mk ((List.range 8).map (fun k => hexDigit ((n >>> (28 - 4 * k)) % 16)))

/-- Hex digest of the SHA-256 of a byte sequence (lowercase, 64 chars),
the functional meaning of hashlib.sha256(data).hexdigest(). -/
def sha256hex (msg : List Nat) : String :=
  String.join ((sha256Words msg).map hexWord32)

/-! The tabular dataset model shared by the transformer and the exporter.
    A DataFrame is an ordered association list of named columns; a column
    is either numeric (float64 or int64, idealised as rationals) or
    categorical (pandas Categorical, entries possibly missing). -/

inductive TCol
  | num (vs : List ℚ)
  | cat (vs : List (Option String))
deriving DecidableEq

def TCol.size : TCol → Nat
  | .num vs => vs.length
  | .cat vs => vs.length

structure TDF where
  cols : List (String × TCol)
deriving DecidableEq

def TDF.names (df : TDF) : List String := df.cols.map (·.1)

def TDF.get (df : TDF) (name : String) : Option TCol :=
  df.cols.lookup name

def TDF.getNum (df : TDF) (name : String) : Option (List ℚ) :=
  match df.get name with
  | some (.num vs) => some vs
  | _ => none

/-- Number of rows, the value of len(df): the common length of the columns
(taken from the first column; 0 for a column-free frame). -/
def TDF.nRows (df : TDF) : Nat :=
  match df.cols with
  | [] => 0
  | c :: _ => c.2.size

/-- Column assignment df[name] = col: replaces the column in place when the
name exists, otherwise appends it as the last column. -/
def TDF.set (df : TDF) (name : String) (c : TCol) : TDF :=
  if name ∈ df.names then
    ⟨df.cols.map (fun p => if p.1 = name then (name, c) else p)⟩
  else
    ⟨df.cols ++ [(name, c)]⟩

/-! Exporter model: scripts/export_data.py.  The file system is an
    association list from path strings to byte lists; writing replaces any
    previous content at the path. -/

def fsWrite (fs : List (String × List Nat)) (path : String) (bytes : List Nat) :
    List (String × List Nat) :=
  (path, bytes) :: fs.filter (fun p => decide (p.1 ≠ path))

def fsRead (fs : List (String × List Nat)) (path : String) : List Nat :=
  (fs.lookup path).getD []

def stringBytes (s : String) : List Nat :=
  s.toUTF8.toList.map (fun b => b.toNat)

/-- Rendering of one cell for the delimited-text export. -/
def cellString : Option ℚ ⊕ Option String → String
  | .inl (some q) => toString q
  | .inl none => ""
  | .inr (some s) => s
  | .inr none => ""

def colCell (c : TCol) (i : Nat) : Option ℚ ⊕ Option String :=
  match c with
  | .num vs => .inl (vs.get? i)
  | .cat vs => .inr ((vs.get? i).getD none)

/-- Serialisation produced by df.to_csv: a header line of column names then
one comma-separated line per row, optionally prefixed by the integer index.
The exact text shape is a model of the opaque pandas encoder; no claim
inspects it. -/
def serializeCSV (df : TDF) (include_index : Bool) : List Nat :=
  let headerCells := (if include_index then [""] else []) ++ df.names
  let header := String.intercalate "," headerCells
  let rows := (List.range df.nRows).map (fun i =>
    let cells := (if include_index then [toString i] else []) ++
      df.cols.map (fun p => cellString (colCell p.2 i))
    String.intercalate "," cells)
  stringBytes (String.intercalate "\n" (header :: rows))

/-- Serialisation produced by df.to_json(orient) — modelled as an opaque
record-oriented encoder over the same cells. -/
def serializeJSON (df : TDF) (orient : String) : List Nat :=
  let rows := (List.range df.nRows).map (fun i =>
    String.intercalate "," (df.cols.map (fun p =>
      p.1 ++ ":" ++ cellString (colCell p.2 i))))
  stringBytes (orient ++ "|" ++ String.intercalate ";" rows)

/-- Serialisation produced by df.to_parquet — modelled as an opaque columnar
encoder over the same cells. -/
def serializeParquet (df : TDF) (compression : String) : List Nat :=
  stringBytes ("PAR1" ++ compression) ++ serializeCSV df false ++ stringBytes "PAR1"

/-- A hashlib hash object, modelled functionally by the byte sequence
absorbed so far; update appends and hexdigest hashes the whole sequence. -/
structure HashObj where
  absorbed : List Nat

def HashObj.update (h : HashObj) (chunk : List Nat) : HashObj :=
  ⟨h.absorbed ++ chunk⟩

def HashObj.hexdigest (h : HashObj) : String := sha256hex h.absorbed

/-- DataExporter.calculate_checksum: stream the file content through the
digest in fixed-size 4096-byte chunks (the sha256 branch of the code;
the md5 branch is never taken by the pipeline and is not modelled). -/
def calculate_checksum (content : List Nat) : String :=
  ((chunksOf 4096 content).foldl HashObj.update ⟨[]⟩).hexdigest

structure ExportEntry where
  timestamp : Nat
  format : String
  filename : String
  path : String
  orient : Option String
  compression : Option String
  rows : Nat
  columns : Option Nat
  size_mb : ℚ
  checksum_sha256 : String
deriving DecidableEq

structure ExporterState where
  df : TDF
  output_dir : String
  export_log : List ExportEntry
  fs : List (String × List Nat)
  parquet_available : Bool
deriving DecidableEq

/-- Python round(x, 2), idealised (round half away from ties is modelled by
the Mathlib round on the scaled value). -/
def round2 (q : ℚ) : ℚ := (round (q * 100) : ℤ) / 100

def mbOf (n : Nat) : ℚ := round2 ((n : ℚ) / 1048576)

/-- DataExporter.export_csv: write the frame, re-read the written file,
record checksum and metadata. -/
def export_csv (s : ExporterState) (filename : String) (include_index : Bool)
    (now : Nat) : String × ExporterState :=
  let path := s.output_dir ++ "/" ++ filename
  let bytes := serializeCSV s.df include_index
  let fs' := fsWrite s.fs path bytes
  let checksum := calculate_checksum (fsRead fs' path)
  (path,
   { s with fs := fs',
            export_log := s.export_log ++
              [{ timestamp := now, format := "CSV", filename := filename,
                 path := path, orient := none, compression := none,
                 rows := s.df.nRows, columns := some s.df.names.length,
                 size_mb := mbOf bytes.length, checksum_sha256 := checksum }] })

/-- DataExporter.export_json. -/
def export_json (s : ExporterState) (filename : String) (orient : String)
    (now : Nat) : String × ExporterState :=
  let path := s.output_dir ++ "/" ++ filename
  let bytes := serializeJSON s.df orient
  let fs' := fsWrite s.fs path bytes
  let checksum := calculate_checksum (fsRead fs' path)
  (path,
   { s with fs := fs',
            export_log := s.export_log ++
              [{ timestamp := now, format := "JSON", filename := filename,
                 path := path, orient := some orient, compression := none,
                 rows := s.df.nRows, columns := none,
                 size_mb := mbOf bytes.length, checksum_sha256 := checksum }] })

/-- DataExporter.export_parquet: when the encoder is unavailable the write
raises ImportError, which the method catches; nothing is written or logged
and None is returned. -/
def export_parquet (s : ExporterState) (filename : String) (compression : String)
    (now : Nat) : Option String × ExporterState :=
  if s.parquet_available then
    let path := s.output_dir ++ "/" ++ filename
    let bytes := serializeParquet s.df compression
    let fs' := fsWrite s.fs path bytes
    let checksum := calculate_checksum (fsRead fs' path)
    (some path,
     { s with fs := fs',
              export_log := s.export_log ++
                [{ timestamp := now, format := "Parquet", filename := filename,
                   path := path, orient := none, compression := some compression,
                   rows := s.df.nRows, columns := none,
                   size_mb := mbOf bytes.length, checksum_sha256 := checksum }] })
  else (none, s)

/-! Loader model: scripts/load_data.py.  Cells of a loaded frame carry the
    runtime value including possible nulls; each column also carries the
    dtype string that str(df[col].dtype) would print. -/

inductive PVal
  | int (i : Int)
  | float (q : ℚ)
  | str (s : String)
  | null
deriving DecidableEq

structure PCol where
  name : String
  dtype : String
  values : List PVal
deriving DecidableEq

structure PDF where
  cols : List PCol
deriving DecidableEq

def PDF.nRows (df : PDF) : Nat :=
  match df.cols with
  | [] => 0
  | c :: _ => c.values.length

def PDF.colNames (df : PDF) : List String := df.cols.map (·.name)

def PDF.row (df : PDF) (i : Nat) : List PVal :=
  df.cols.map (fun c => c.values.getD i .null)

def PDF.rows (df : PDF) : List (List PVal) :=
  (List.range df.nRows).map df.row

def EXPECTED_COLUMNS : List String :=
  ["UDI", "Product ID", "Type", "Air temperature [K]",
   "Process temperature [K]", "Rotational speed [rpm]",
   "Torque [Nm]", "Tool wear [min]", "Machine failure",
   "TWF", "HDF", "PWF", "OSF", "RNF"]

def EXPECTED_DTYPES : List (String × String) :=
  [("UDI", "int64"), ("Product ID", "object"), ("Type", "object"),
   ("Air temperature [K]", "float64"), ("Process temperature [K]", "float64"),
   ("Rotational speed [rpm]", "int64"), ("Torque [Nm]", "float64"),
   ("Tool wear [min]", "int64"), ("Machine failure", "int64"),
   ("TWF", "int64"), ("HDF", "int64"), ("PWF", "int64"),
   ("OSF", "int64"), ("RNF", "int64")]

def EXPECTED_ROWS : Nat := 10000

/-- Total count of nulls across all columns, df.isnull().sum().sum(). -/
def PDF.nullCount (df : PDF) : Nat :=
  df.cols.foldl (fun n c => n + c.values.countP (fun v => decide (v = .null))) 0

/-- Count of rows equal to an earlier row, df.duplicated().sum(). -/
def dupCountAux : List (List PVal) → List (List PVal) → Nat
  | _, [] => 0
  | seen, r :: rest =>
    (if r ∈ seen then 1 else 0) + dupCountAux (r :: seen) rest

def PDF.dupCount (df : PDF) : Nat := dupCountAux [] df.rows

/-- Columns of the frame whose dtype differs from the expected dtype
(columns absent from the frame are skipped), with expected and actual. -/
def dtypeMismatches (df : PDF) : List (String × String × String) :=
  EXPECTED_DTYPES.filterMap (fun p =>
    match df.cols.find? (fun c => c.name == p.1) with
    | none => none
    | some c => if c.dtype = p.2 then none else some (p.1, p.2, c.dtype))

inductive Status
  | PASS
  | WARN
  | FAIL
deriving DecidableEq

structure CheckRowCount where
  expected : Nat
  actual : Nat
  status : Status
deriving DecidableEq

structure CheckColumns where
  expected : Nat
  actual : Nat
  missing : List String
  extra : List String
  status : Status
deriving DecidableEq

structure CheckTypes where
  mismatches : List (String × String × String)
  status : Status
deriving DecidableEq

structure CheckCount where
  total : Nat
  status : Status
deriving DecidableEq

structure ValidationResults where
  row_count : CheckRowCount
  columns : CheckColumns
  data_types : CheckTypes
  missing_values : CheckCount
  duplicates : CheckCount
deriving DecidableEq

/-- Missing columns: the expected columns absent from the frame (Python
computes the set difference; only membership and emptiness are consumed). -/
def missingCols (df : PDF) : List String :=
  EXPECTED_COLUMNS.filter (fun c => decide (c ∉ df.colNames))

def extraCols (df : PDF) : List String :=
  df.colNames.filter (fun c => decide (c ∉ EXPECTED_COLUMNS))

/-- DataLoader.validate_structure. -/
def validate_structure (df : PDF) : ValidationResults :=
  { row_count :=
      { expected := EXPECTED_ROWS, actual := df.nRows,
        status := if df.nRows = EXPECTED_ROWS then .PASS else .WARN }
  , columns :=
      { expected := EXPECTED_COLUMNS.length, actual := df.colNames.length,
        missing := missingCols df, extra := extraCols df,
        status := if missingCols df = [] then .PASS else .FAIL }
  , data_types :=
      { mismatches := dtypeMismatches df,
        status := if dtypeMismatches df = [] then .PASS else .WARN }
  , missing_values :=
      { total := df.nullCount,
        status := if df.nullCount = 0 then .PASS else .WARN }
  , duplicates :=
      { total := df.dupCount,
        status := if df.dupCount = 0 then .PASS else .WARN } }

def statusOk (st : Status) : Bool := st == .PASS || st == .WARN

/-- The gate in main.py: all(v.get(status) in [PASS, WARN] for v in results);
the run is aborted exactly when this is false. -/
def allPassed (r : ValidationResults) : Bool :=
  statusOk r.row_count.status && statusOk r.columns.status &&
  statusOk r.data_types.status && statusOk r.missing_values.status &&
  statusOk r.duplicates.status

/-! Transformer model: scripts/transform_data.py. -/

/-- Python exceptions that the transformer code can raise, plus the
InvalidConfiguration error named by the design document (section 7 of the
spec); the code itself never constructs the latter. -/
inductive PyErr
  | keyError (k : String)
  | unboundLocalError (v : String)
  | zeroDivisionError
  | valueError (msg : String)
  | invalidConfiguration
deriving DecidableEq

def CONTINUOUS_FEATURES : List String :=
  ["Air temperature [K]", "Process temperature [K]", "Rotational speed [rpm]",
   "Torque [Nm]", "Tool wear [min]"]

/-- Linear interpolation at a fractional position into a list, the body of
the numpy linear-interpolation quantile: value at floor(pos) plus the
fractional part times the gap to the next value. -/
def interpAt (s : List ℚ) (pos : ℚ) : ℚ :=
  let i : Nat := (⌊pos⌋).toNat
  let a := s.getD i 0
  let b := s.getD (i + 1) a
  a + Int.fract pos * (b - a)

/-- Series.quantile(q) with linear interpolation: sort the values and
interpolate at position q times (n - 1). -/
def quantile (xs : List ℚ) (q : ℚ) : ℚ :=
  if xs = [] then 0
  else interpAt (xs.insertionSort (· ≤ ·)) (q * ((xs.length : ℚ) - 1))

/-- Indices of the rows flagged by the IQR rule at a given threshold:
values outside the closed band from Q1 minus threshold times IQR to
Q3 plus threshold times IQR. -/
def iqrFlag (vs : List ℚ) (threshold : ℚ) : List Nat :=
  let q1 := quantile vs (1/4)
  let q3 := quantile vs (3/4)
  let iqr := q3 - q1
  let lo := q1 - threshold * iqr
  let hi := q3 + threshold * iqr
  (List.range vs.length).filter (fun i =>
    decide (vs.getD i 0 < lo) || decide (hi < vs.getD i 0))

def listSum (xs : List ℚ) : ℚ := xs.foldl (· + ·) 0

def meanQ (xs : List ℚ) : ℚ := listSum xs / (xs.length : ℚ)

/-- Rational stand-in for numpy.sqrt: exact whenever num times den is a
perfect square, an approximation otherwise.  No claim depends on its
value. -/
def ratSqrt (q : ℚ) : ℚ :=
  ((Nat.sqrt (q.num.toNat * q.den) : ℚ)) / (q.den : ℚ)

/-- Sample standard deviation with one delta degree of freedom, the default
of Series.std used by the z-score branch. -/
def sampleStd (xs : List ℚ) : ℚ :=
  ratSqrt (listSum (xs.map (fun x => (x - meanQ xs) ^ 2)) / ((xs.length : ℚ) - 1))

/-- Indices flagged by the z-score rule: absolute standardised deviation
strictly above the threshold. -/
def zscoreFlag (vs : List ℚ) (threshold : ℚ) : List Nat :=
  let m := meanQ vs
  let sd := sampleStd vs
  (List.range vs.length).filter (fun i =>
    decide (threshold < |vs.getD i 0 - m| / sd))

structure OutlierInfo where
  count : Nat
  percentage : ℚ
  indices : Option (List Nat)
deriving DecidableEq

/-- One transformation-log entry, as appended by the three operations. -/
inductive TransformLogEntry
  | outlierDetection (timestamp : Nat) (method : String) (threshold : ℚ)
      (results : List (String × Nat))
  | normalization (timestamp : Nat) (method : String) (features : List String)
      (parameters : List (String × ℚ × ℚ))
  | featureEngineering (timestamp : Nat) (derived : List String)
      (description : String)
deriving DecidableEq

structure TransformerState where
  df : TDF
  df_transformed : Option TDF
  scaler : Option (List (String × ℚ × ℚ))
  transformation_log : List TransformLogEntry
deriving DecidableEq

/-- Summary of the per-feature flagged rows for one feature: count,
percentage of rows, and the index list when below 100. -/
def outlierSummary (flags : List Nat) (nrows : Nat) : OutlierInfo :=
  { count := flags.length
  , percentage := (flags.length : ℚ) / (nrows : ℚ) * 100
  , indices := if flags.length < 100 then some flags else none }

/-- The per-feature loop of detect_outliers.  An unsupported method leaves
the local variable named outliers unbound on the first iteration; a missing
feature column raises KeyError; an empty frame raises ZeroDivisionError at
the percentage computation. -/
def detectLoop (df : TDF) (method : String) (threshold : ℚ) :
    List String → Except PyErr (List (String × OutlierInfo))
  | [] => .ok []
  | f :: rest =>
    if method = "iqr" then
      match df.getNum f with
      | none => .error (.keyError f)
      | some vs =>
        if df.nRows = 0 then .error .zeroDivisionError
        else
          (detectLoop df method threshold rest).map
            (fun tl => (f, outlierSummary (iqrFlag vs threshold) df.nRows) :: tl)
    else if method = "zscore" then
      match df.getNum f with
      | none => .error (.keyError f)
      | some vs =>
        if df.nRows = 0 then .error .zeroDivisionError
        else
          (detectLoop df method threshold rest).map
            (fun tl => (f, outlierSummary (zscoreFlag vs threshold) df.nRows) :: tl)
    else .error (.unboundLocalError "outliers")

/-- DataTransformer.detect_outliers: detection only; on success one
transformation-log record is appended carrying method, threshold and the
per-feature counts. -/
def detect_outliers (s : TransformerState) (method : String) (threshold : ℚ)
    (now : Nat) : Except PyErr (List (String × OutlierInfo)) × TransformerState :=
  match detectLoop s.df method threshold CONTINUOUS_FEATURES with
  | .error e => (.error e, s)
  | .ok info =>
    (.ok info,
     { s with transformation_log := s.transformation_log ++
        [.outlierDetection now method threshold
          (info.map (fun p => (p.1, p.2.count)))] })

/-- Shared per-feature fitting loop of the three scaler branches: a missing
or non-numeric feature column raises KeyError at the frame indexing, and
sklearn rejects an empty frame with ValueError.  The fitted pair for each
feature is produced by mk from the original column values. -/
def fitFeatures (df : TDF) (mk : List ℚ → ℚ × ℚ) :
    List String → Except PyErr (List (String × ℚ × ℚ))
  | [] => .ok []
  | f :: rest =>
    match df.getNum f with
    | none => .error (.keyError f)
    | some vs =>
      if vs.length = 0 then .error (.valueError "0 samples")
      else (fitFeatures df mk rest).map (fun ps => (f, mk vs) :: ps)

/-- Population variance, the variance fitted by StandardScaler. -/
def popVar (xs : List ℚ) : ℚ :=
  listSum (xs.map (fun x => (x - meanQ xs) ^ 2)) / (xs.length : ℚ)

/-- The sklearn guard that replaces a zero scale by one so that constant
features map to zero rather than dividing by zero. -/
def handleZeros (s : ℚ) : ℚ := if s = 0 then 1 else s

/-- StandardScaler: mean and standard deviation (scale adjusted for zero
variance, as stored in scaler.scale_). -/
def fitStandard (df : TDF) : Except PyErr (List (String × ℚ × ℚ)) :=
  fitFeatures df (fun vs => (meanQ vs, handleZeros (ratSqrt (popVar vs))))
    CONTINUOUS_FEATURES

def listMin (xs : List ℚ) : ℚ :=
  match xs with
  | [] => 0
  | x :: rest => rest.foldl min x

def listMax (xs : List ℚ) : ℚ :=
  match xs with
  | [] => 0
  | x :: rest => rest.foldl max x

/-- MinMaxScaler: observed minimum and maximum (data_min_ and data_max_). -/
def fitMinmax (df : TDF) : Except PyErr (List (String × ℚ × ℚ)) :=
  fitFeatures df (fun vs => (listMin vs, listMax vs)) CONTINUOUS_FEATURES

/-- RobustScaler: median and inter-quartile range (center_ and scale_, the
scale adjusted for a zero range). -/
def fitRobust (df : TDF) : Except PyErr (List (String × ℚ × ℚ)) :=
  fitFeatures df
    (fun vs => (quantile vs (1/2),
                handleZeros (quantile vs (3/4) - quantile vs (1/4))))
    CONTINUOUS_FEATURES

/-- Per-value transform of each method applied with the fitted pair. -/
def applyScale (method : String) (p : ℚ × ℚ) (x : ℚ) : ℚ :=
  if method = "standard" then (x - p.1) / p.2
  else if method = "minmax" then (x - p.1) / handleZeros (p.2 - p.1)
  else (x - p.1) / p.2

/-- The assignment df_transformed[features] = scaler.fit_transform(df[features]):
each fitted feature column of the base frame is replaced by the scaled
values computed from the original frame df. -/
def scaleDF (df : TDF) (method : String) (params : List (String × ℚ × ℚ)) : TDF :=
  params.foldl
    (fun acc fp =>
      match df.getNum fp.1 with
      | some vs => acc.set fp.1 (.num (vs.map (applyScale method fp.2)))
      | none => acc)
    df

/-- DataTransformer.normalize_features.  The method first replaces
df_transformed by a fresh copy of the original frame; a supported method
then fits on the original values, overwrites the feature columns of that
copy, appends one normalization record with the fitted parameters and
returns the transformed frame; an unsupported method falls through every
branch and fails at the log-entry construction with an unbound local
variable, after df_transformed has already been replaced. -/
def normalize_features (s : TransformerState) (method : String) (now : Nat) :
    Except PyErr TDF × TransformerState :=
  if method = "standard" then
    match fitStandard s.df with
    | .error e => (.error e, { s with df_transformed := some s.df })
    | .ok params =>
      let dft := scaleDF s.df method params
      (.ok dft,
       { s with df_transformed := some dft,
                scaler := some params,
                transformation_log := s.transformation_log ++
                  [.normalization now method CONTINUOUS_FEATURES params] })
  else if method = "minmax" then
    match fitMinmax s.df with
    | .error e => (.error e, { s with df_transformed := some s.df })
    | .ok params =>
      let dft := scaleDF s.df method params
      (.ok dft,
       { s with df_transformed := some dft,
                transformation_log := s.transformation_log ++
                  [.normalization now method CONTINUOUS_FEATURES params] })
  else if method = "robust" then
    match fitRobust s.df with
    | .error e => (.error e, { s with df_transformed := some s.df })
    | .ok params =>
      let dft := scaleDF s.df method params
      (.ok dft,
       { s with df_transformed := some dft,
                transformation_log := s.transformation_log ++
                  [.normalization now method CONTINUOUS_FEATURES params] })
  else
    (.error (.unboundLocalError "scaling_params"),
     { s with df_transformed := some s.df })

/-- The binning performed by pd.cut with bins 0, 100, 200, infinity and
default right-closed intervals: a value falls in the first bin whose
left boundary it strictly exceeds and whose right boundary it does not
exceed; values at or below the lowest edge get no category. -/
def wearCategory (w : ℚ) : Option String :=
  if 0 < w ∧ w ≤ 100 then some "Low"
  else if 100 < w ∧ w ≤ 200 then some "Medium"
  else if 200 < w then some "High"
  else none

def derivedFeatureNames : List String :=
  ["Temp_Difference", "Power_Estimate", "Tool_Wear_Category"]

/-- The exact rational value of the IEEE-754 double numpy.pi. -/
def npPi : ℚ := 884279719003555 / 281474976710656

/-- DataTransformer.compute_derived_features: starting from df_transformed
(or a fresh copy of the original frame when None), adds the temperature
difference, the power estimate and the wear category, all computed from
the original frame; appends one feature-engineering record.  Each source
column is read from the original frame and raises KeyError when absent. -/
def compute_derived_features (s : TransformerState) (now : Nat) :
    Except PyErr TDF × TransformerState :=
  let base := s.df_transformed.getD s.df
  match s.df.getNum "Process temperature [K]" with
  | none => (.error (.keyError "Process temperature [K]"),
             { s with df_transformed := some base })
  | some proc =>
  match s.df.getNum "Air temperature [K]" with
  | none => (.error (.keyError "Air temperature [K]"),
             { s with df_transformed := some base })
  | some air =>
  let d1 := base.set "Temp_Difference" (.num (List.zipWith (· - ·) proc air))
  match s.df.getNum "Torque [Nm]" with
  | none => (.error (.keyError "Torque [Nm]"), { s with df_transformed := some d1 })
  | some torque =>
  match s.df.getNum "Rotational speed [rpm]" with
  | none => (.error (.keyError "Rotational speed [rpm]"),
             { s with df_transformed := some d1 })
  | some speed =>
  let d2 := d1.set "Power_Estimate"
    (.num (List.zipWith (fun t r => t * r * 2 * npPi / 60) torque speed))
  match s.df.getNum "Tool wear [min]" with
  | none => (.error (.keyError "Tool wear [min]"),
             { s with df_transformed := some d2 })
  | some wear =>
  let d3 := d2.set "Tool_Wear_Category" (.cat (wear.map wearCategory))
  (.ok d3,
   { s with df_transformed := some d3,
            transformation_log := s.transformation_log ++
              [.featureEngineering now derivedFeatureNames
                "Added temperature difference, power estimate, and tool wear category"] })

/-! Provenance model: scripts/log_provenance.py.  Dictionaries supplied by
    callers are modelled as association lists of strings. -/

structure StepRecord where
  step_name : String
  description : String
  timestamp : Nat
  status : String
  parameters : List (String × String)
deriving DecidableEq

structure TransRecord where
  typ : String
  timestamp : Nat
  details : List (String × String)
deriving DecidableEq

structure QCRecord where
  check_name : String
  timestamp : Nat
  passed : Bool
  results : List (String × String)
deriving DecidableEq

structure ExportRecord where
  info : List (String × String)
  logged_at : Nat
deriving DecidableEq

structure NoteRecord where
  timestamp : Nat
  category : String
  text : String
deriving DecidableEq

structure CuratorRecord where
  name : String
  institution : String
  contact : Option String
  added_at : Nat
deriving DecidableEq

structure EnvRecord where
  captured_at : Nat
  fingerprint : List (String × String)
deriving DecidableEq

structure ProvenanceState where
  project_name : String
  creation_timestamp : Nat
  dataset_source : Option (List (String × String) × Nat)
  curation_workflow : List StepRecord
  system_environment : Option EnvRecord
  data_transformations : List TransRecord
  quality_checks : List QCRecord
  exports : List ExportRecord
  curator : Option CuratorRecord
  notes : Option (List NoteRecord)
deriving DecidableEq

/-- ProvenanceLogger construction. -/
def provenanceInit (project_name : String) (now : Nat) : ProvenanceState :=
  { project_name := project_name, creation_timestamp := now,
    dataset_source := none, curation_workflow := [],
    system_environment := none, data_transformations := [],
    quality_checks := [], exports := [], curator := none, notes := none }

/-- ProvenanceLogger.log_dataset_source: assigns the dataset_source field,
replacing whatever was recorded before (the missing-field check only logs
warnings). -/
def log_dataset_source (s : ProvenanceState) (source_info : List (String × String))
    (now : Nat) : ProvenanceState :=
  { s with dataset_source := some (source_info, now) }

/-- ProvenanceLogger.log_workflow_step: appends one step record. -/
def log_workflow_step (s : ProvenanceState) (step_name description : String)
    (parameters : List (String × String)) (status : String) (now : Nat) :
    ProvenanceState :=
  { s with curation_workflow := s.curation_workflow ++
      [{ step_name := step_name, description := description, timestamp := now,
         status := status, parameters := parameters }] }

/-- ProvenanceLogger.log_transformation: appends one transformation record. -/
def log_transformation (s : ProvenanceState) (transformation_type : String)
    (details : List (String × String)) (now : Nat) : ProvenanceState :=
  { s with data_transformations := s.data_transformations ++
      [{ typ := transformation_type, timestamp := now, details := details }] }

/-- ProvenanceLogger.log_quality_check: appends one quality-check record. -/
def log_quality_check (s : ProvenanceState) (check_name : String)
    (results : List (String × String)) (passed : Bool) (now : Nat) :
    ProvenanceState :=
  { s with quality_checks := s.quality_checks ++
      [{ check_name := check_name, timestamp := now, passed := passed,
         results := results }] }

/-- ProvenanceLogger.log_export: appends one export record. -/
def log_export (s : ProvenanceState) (export_info : List (String × String))
    (now : Nat) : ProvenanceState :=
  { s with exports := s.exports ++ [{ info := export_info, logged_at := now }] }

/-- ProvenanceLogger.capture_system_environment: assigns the environment
snapshot, replacing whatever was recorded before; the ambient platform
facts are passed in as the fingerprint. -/
def capture_system_environment (s : ProvenanceState)
    (fingerprint : List (String × String)) (now : Nat) : ProvenanceState :=
  { s with system_environment := some ⟨now, fingerprint⟩ }

/-- ProvenanceLogger.add_curator_info: assigns the curator field, replacing
whatever was recorded before. -/
def add_curator_info (s : ProvenanceState) (curator_name institution : String)
    (contact : Option String) (now : Nat) : ProvenanceState :=
  { s with curator := some ⟨curator_name, institution, contact, now⟩ }

/-- ProvenanceLogger.add_notes: creates the notes list on first use and
appends one note record. -/
def add_notes (s : ProvenanceState) (note_text : String) (category : String)
    (now : Nat) : ProvenanceState :=
  { s with notes := some ((s.notes.getD []) ++
      [{ timestamp := now, category := category, text := note_text }]) }

/-! Concrete sample data used by witnesses and counterexamples. -/

/-- A one-row frame holding the five continuous features, with the torque
and rotational speed of the concrete scenario in the spec and tool wear on
a bin boundary. -/
def sampleDF : TDF :=
  ⟨[("Air temperature [K]", .num [300]),
    ("Process temperature [K]", .num [310]),
    ("Rotational speed [rpm]", .num [1500]),
    ("Torque [Nm]", .num [42]),
    ("Tool wear [min]", .num [100])]⟩

def sampleState : TransformerState :=
  { df := sampleDF, df_transformed := none, scaler := none,
    transformation_log := [] }

/-! Frame predicates on the provenance record: all fields other than the
    named one are unchanged. -/

def sameExceptSource (s t : ProvenanceState) : Prop :=
  t.project_name = s.project_name ∧ t.creation_timestamp = s.creation_timestamp ∧
  t.curation_workflow = s.curation_workflow ∧
  t.system_environment = s.system_environment ∧
  t.data_transformations = s.data_transformations ∧
  t.quality_checks = s.quality_checks ∧ t.exports = s.exports ∧
  t.curator = s.curator ∧ t.notes = s.notes

def sameExceptWorkflow (s t : ProvenanceState) : Prop :=
  t.project_name = s.project_name ∧ t.creation_timestamp = s.creation_timestamp ∧
  t.dataset_source = s.dataset_source ∧
  t.system_environment = s.system_environment ∧
  t.data_transformations = s.data_transformations ∧
  t.quality_checks = s.quality_checks ∧ t.exports = s.exports ∧
  t.curator = s.curator ∧ t.notes = s.notes

def sameExceptTrans (s t : ProvenanceState) : Prop :=
  t.project_name = s.project_name ∧ t.creation_timestamp = s.creation_timestamp ∧
  t.dataset_source = s.dataset_source ∧ t.curation_workflow = s.curation_workflow ∧
  t.system_environment = s.system_environment ∧
  t.quality_checks = s.quality_checks ∧ t.exports = s.exports ∧
  t.curator = s.curator ∧ t.notes = s.notes

def sameExceptQC (s t : ProvenanceState) : Prop :=
  t.project_name = s.project_name ∧ t.creation_timestamp = s.creation_timestamp ∧
  t.dataset_source = s.dataset_source ∧ t.curation_workflow = s.curation_workflow ∧
  t.system_environment = s.system_environment ∧
  t.data_transformations = s.data_transformations ∧ t.exports = s.exports ∧
  t.curator = s.curator ∧ t.notes = s.notes

def sameExceptExports (s t : ProvenanceState) : Prop :=
  t.project_name = s.project_name ∧ t.creation_timestamp = s.creation_timestamp ∧
  t.dataset_source = s.dataset_source ∧ t.curation_workflow = s.curation_workflow ∧
  t.system_environment = s.system_environment ∧
  t.data_transformations = s.data_transformations ∧
  t.quality_checks = s.quality_checks ∧ t.curator = s.curator ∧ t.notes = s.notes

def sameExceptEnv (s t : ProvenanceState) : Prop :=
  t.project_name = s.project_name ∧ t.creation_timestamp = s.creation_timestamp ∧
  t.dataset_source = s.dataset_source ∧ t.curation_workflow = s.curation_workflow ∧
  t.data_transformations = s.data_transformations ∧
  t.quality_checks = s.quality_checks ∧ t.exports = s.exports ∧
  t.curator = s.curator ∧ t.notes = s.notes

def sameExceptCurator (s t : ProvenanceState) : Prop :=
  t.project_name = s.project_name ∧ t.creation_timestamp = s.creation_timestamp ∧
  t.dataset_source = s.dataset_source ∧ t.curation_workflow = s.curation_workflow ∧
  t.system_environment = s.system_environment ∧
  t.data_transformations = s.data_transformations ∧
  t.quality_checks = s.quality_checks ∧ t.exports = s.exports ∧ t.notes = s.notes

def sameExceptNotes (s t : ProvenanceState) : Prop :=
  t.project_name = s.project_name ∧ t.creation_timestamp = s.creation_timestamp ∧
  t.dataset_source = s.dataset_source ∧ t.curation_workflow = s.curation_workflow ∧
  t.system_environment = s.system_environment ∧
  t.data_transformations = s.data_transformations ∧
  t.quality_checks = s.quality_checks ∧ t.exports = s.exports ∧
  t.curator = s.curator


/-- Whether an Except value is a success, the shape of a call that returns
without raising. -/
def exOk {e a : Type} : Except e a → Bool
  | .ok _ => true
  | .error _ => false


/-! Helper lemmas. -/

theorem foldl_update_absorbed (chunks : List (List Nat)) (pre : List Nat) :
    ((chunks.foldl HashObj.update ⟨pre⟩).absorbed) = pre ++ chunks.flatten := by
  induction chunks generalizing pre with
  | nil => simp
  | cons c rest ih => simp [HashObj.update, ih, List.append_assoc]

theorem chunksOfAux_join (k : Nat) (hk : 0 < k) :
    ∀ (fuel : Nat) (l : List Nat), l.length ≤ fuel →
      (chunksOfAux k fuel l).flatten = l := by
  intro fuel
  induction fuel with
  | zero =>
    intro l hl
    have : l = [] := List.length_eq_zero.mp (Nat.le_zero.mp hl)
    subst this
    simp [chunksOfAux]
  | succ fuel ih =>
    intro l hl
    cases l with
    | nil => simp [chunksOfAux]
    | cons x xs =>
      have hdrop : ((x :: xs).drop k).length ≤ fuel := by
        rw [List.length_drop]
        simp only [List.length_cons] at hl ⊢
        omega
      simp only [chunksOfAux, List.flatten_cons]
      rw [ih _ hdrop, List.take_append_drop]

theorem calculate_checksum_eq_sha256hex (content : List Nat) :
    calculate_checksum content = sha256hex content := by
  unfold calculate_checksum HashObj.hexdigest chunksOf
  rw [foldl_update_absorbed, List.nil_append,
    chunksOfAux_join 4096 (by norm_num) content.length content le_rfl]

set_option maxRecDepth 40000 in
/-- Validation of the SHA-256 model on the standard test vector for the
three-byte message abc. -/
theorem sha256hex_abc :
    sha256hex [0x61, 0x62, 0x63] =
      "ba7816bf8f01cfea414140de5dae2223b00361a396177a9cb410ff61f20015ad" := by
  decide

theorem fsRead_fsWrite_self (fs : List (String × List Nat)) (path : String)
    (bytes : List Nat) : fsRead (fsWrite fs path bytes) path = bytes := by
  simp [fsRead, fsWrite, List.lookup]

set_option maxHeartbeats 1000000 in
/-- C1.  For every exported artifact the checksum recorded in the export-log
entry equals the SHA-256 digest of the written file re-read byte for byte;
calculate_checksum is a function of the content alone, and hashing the
content in fixed 4096-byte chunks reproduces the digest of the whole
content. -/
theorem c1_checksum_integrity :
    (∀ content : List Nat, calculate_checksum content = sha256hex content) ∧
    (∀ (s : ExporterState) (filename : String) (include_index : Bool) (now : Nat),
      ∃ e : ExportEntry,
        (export_csv s filename include_index now).2.export_log = s.export_log ++ [e] ∧
        fsRead (export_csv s filename include_index now).2.fs
            (export_csv s filename include_index now).1 =
          serializeCSV s.df include_index ∧
        e.checksum_sha256 =
          calculate_checksum (fsRead (export_csv s filename include_index now).2.fs
            (export_csv s filename include_index now).1) ∧
        e.checksum_sha256 = sha256hex (serializeCSV s.df include_index)) ∧
    (∀ (s : ExporterState) (filename orient : String) (now : Nat),
      ∃ e : ExportEntry,
        (export_json s filename orient now).2.export_log = s.export_log ++ [e] ∧
        fsRead (export_json s filename orient now).2.fs
            (export_json s filename orient now).1 =
          serializeJSON s.df orient ∧
        e.checksum_sha256 =
          calculate_checksum (fsRead (export_json s filename orient now).2.fs
            (export_json s filename orient now).1) ∧
        e.checksum_sha256 = sha256hex (serializeJSON s.df orient)) ∧
    (∀ (s : ExporterState) (filename compression : String) (now : Nat),
      ((export_parquet s filename compression now).1 = none ∧
        (export_parquet s filename compression now).2 = s) ∨
      (∃ (e : ExportEntry) (path : String),
        (export_parquet s filename compression now).1 = some path ∧
        (export_parquet s filename compression now).2.export_log =
          s.export_log ++ [e] ∧
        fsRead (export_parquet s filename compression now).2.fs path =
          serializeParquet s.df compression ∧
        e.checksum_sha256 = sha256hex (serializeParquet s.df compression))) := by
  refine ⟨calculate_checksum_eq_sha256hex, ?_, ?_, ?_⟩
  · intro s filename include_index now
    refine ⟨_, rfl, ?_, rfl, ?_⟩
    · simp only [export_csv]
      exact fsRead_fsWrite_self _ _ _
    · simp only [export_csv]
      rw [fsRead_fsWrite_self, calculate_checksum_eq_sha256hex]
  · intro s filename orient now
    refine ⟨_, rfl, ?_, rfl, ?_⟩
    · simp only [export_json]
      exact fsRead_fsWrite_self _ _ _
    · simp only [export_json]
      rw [fsRead_fsWrite_self, calculate_checksum_eq_sha256hex]
  · intro s filename compression now
    by_cases hp : s.parquet_available
    · right
      simp only [export_parquet, hp, if_true]
      refine ⟨_, _, rfl, rfl, ?_, ?_⟩
      · exact fsRead_fsWrite_self _ _ _
      · show calculate_checksum _ = _
        rw [calculate_checksum_eq_sha256hex, fsRead_fsWrite_self]
    · left
      simp [export_parquet, hp]

theorem missingCols_eq_nil_iff (df : PDF) :
    missingCols df = [] ↔ ∀ c ∈ EXPECTED_COLUMNS, c ∈ df.colNames := by
  simp [missingCols, List.filter_eq_nil_iff]

theorem allPassed_validate (df : PDF) :
    allPassed (validate_structure df) = decide (missingCols df = []) := by
  simp only [allPassed, validate_structure, statusOk]
  split_ifs <;> simp [*]

/-- C2.  validate_structure reports all five checks; the column check is
FAIL exactly when an expected column is missing, no other check can be
FAIL, and the gate in main.py rejects the run exactly when an expected
column is missing. -/
theorem c2_only_missing_columns_fatal :
    ∀ df : PDF,
      ((validate_structure df).columns.status = .FAIL ↔
        ∃ c ∈ EXPECTED_COLUMNS, c ∉ df.colNames) ∧
      (validate_structure df).row_count.status ≠ .FAIL ∧
      (validate_structure df).data_types.status ≠ .FAIL ∧
      (validate_structure df).missing_values.status ≠ .FAIL ∧
      (validate_structure df).duplicates.status ≠ .FAIL ∧
      (allPassed (validate_structure df) = false ↔
        ∃ c ∈ EXPECTED_COLUMNS, c ∉ df.colNames) := by
  intro df
  have hiff : ¬ missingCols df = [] ↔ ∃ c ∈ EXPECTED_COLUMNS, c ∉ df.colNames := by
    rw [missingCols_eq_nil_iff]
    push_neg
    rfl
  refine ⟨?_, ?_, ?_, ?_, ?_, ?_⟩
  · rw [← hiff]
    simp only [validate_structure]
    split_ifs with h <;> simp [h]
  · simp only [validate_structure]
    split_ifs <;> decide
  · simp only [validate_structure]
    split_ifs <;> decide
  · simp only [validate_structure]
    split_ifs <;> decide
  · simp only [validate_structure]
    split_ifs <;> decide
  · rw [← hiff, allPassed_validate]
    simp

/-- C9 counterexample.  Recording the dataset source a second time on the
same instance overwrites the fact recorded by the first call, so
information recorded earlier is no longer present: recording calls of this
kind are not irreversible. -/
theorem c9_counterexample :
    (log_dataset_source (provenanceInit "P" 0) [("title", "A")] 1).dataset_source
      = some ([("title", "A")], 1) ∧
    (log_dataset_source (log_dataset_source (provenanceInit "P" 0)
        [("title", "A")] 1) [("title", "B")] 2).dataset_source
      ≠ some ([("title", "A")], 1) := by
  refine ⟨rfl, ?_⟩
  decide

/-- C9 amended.  Every recording call is timestamped with the call-time
clock; the five list-valued calls (workflow steps, transformations,
quality checks, exports, notes) append exactly one record, preserve all
earlier entries and leave every other field unchanged; the calls recording
dataset source, environment and curator identity assign their field,
replacing any previously recorded value of the same kind, and leave every
other field unchanged. -/
theorem c9_amended :
    (∀ (s : ProvenanceState) (info : List (String × String)) (now : Nat),
      (log_dataset_source s info now).dataset_source = some (info, now) ∧
      sameExceptSource s (log_dataset_source s info now)) ∧
    (∀ (s : ProvenanceState) (n d : String) (p : List (String × String))
        (st : String) (now : Nat),
      (log_workflow_step s n d p st now).curation_workflow =
        s.curation_workflow ++ [⟨n, d, now, st, p⟩] ∧
      (∀ r ∈ s.curation_workflow, r ∈ (log_workflow_step s n d p st now).curation_workflow) ∧
      sameExceptWorkflow s (log_workflow_step s n d p st now)) ∧
    (∀ (s : ProvenanceState) (t : String) (dt : List (String × String)) (now : Nat),
      (log_transformation s t dt now).data_transformations =
        s.data_transformations ++ [⟨t, now, dt⟩] ∧
      (∀ r ∈ s.data_transformations, r ∈ (log_transformation s t dt now).data_transformations) ∧
      sameExceptTrans s (log_transformation s t dt now)) ∧
    (∀ (s : ProvenanceState) (c : String) (r : List (String × String))
        (p : Bool) (now : Nat),
      (log_quality_check s c r p now).quality_checks =
        s.quality_checks ++ [⟨c, now, p, r⟩] ∧
      (∀ q ∈ s.quality_checks, q ∈ (log_quality_check s c r p now).quality_checks) ∧
      sameExceptQC s (log_quality_check s c r p now)) ∧
    (∀ (s : ProvenanceState) (i : List (String × String)) (now : Nat),
      (log_export s i now).exports = s.exports ++ [⟨i, now⟩] ∧
      (∀ r ∈ s.exports, r ∈ (log_export s i now).exports) ∧
      sameExceptExports s (log_export s i now)) ∧
    (∀ (s : ProvenanceState) (f : List (String × String)) (now : Nat),
      (capture_system_environment s f now).system_environment = some ⟨now, f⟩ ∧
      sameExceptEnv s (capture_system_environment s f now)) ∧
    (∀ (s : ProvenanceState) (n i : String) (c : Option String) (now : Nat),
      (add_curator_info s n i c now).curator = some ⟨n, i, c, now⟩ ∧
      sameExceptCurator s (add_curator_info s n i c now)) ∧
    (∀ (s : ProvenanceState) (txt cat : String) (now : Nat),
      (add_notes s txt cat now).notes =
        some ((s.notes.getD []) ++ [⟨now, cat, txt⟩]) ∧
      sameExceptNotes s (add_notes s txt cat now)) := by
  refine ⟨?_, ?_, ?_, ?_, ?_, ?_, ?_, ?_⟩ <;> intros <;>
    refine ⟨rfl, ?_⟩ <;>
    try exact ⟨rfl, rfl, rfl, rfl, rfl, rfl, rfl, rfl, rfl⟩
  all_goals
    refine ⟨fun r hr => List.mem_append_left _ hr,
      rfl, rfl, rfl, rfl, rfl, rfl, rfl, rfl, rfl⟩

/-- C7.  detect_outliers never removes or alters data: for every dataset,
method and threshold, the frame, the transformed frame and the fitted
scaler are identical after the call; the only state change is the
possibly-appended transformation-log record. -/
theorem c7_detect_outliers_frame :
    ∀ (s : TransformerState) (method : String) (threshold : ℚ) (now : Nat),
      (detect_outliers s method threshold now).2.df = s.df ∧
      (detect_outliers s method threshold now).2.df_transformed = s.df_transformed ∧
      (detect_outliers s method threshold now).2.scaler = s.scaler ∧
      ((detect_outliers s method threshold now).2.transformation_log =
          s.transformation_log ∨
        ∃ rec, (detect_outliers s method threshold now).2.transformation_log =
          s.transformation_log ++ [rec]) := by
  intro s method threshold now
  unfold detect_outliers
  cases h : detectLoop s.df method threshold CONTINUOUS_FEATURES with
  | error e => exact ⟨rfl, rfl, rfl, .inl rfl⟩
  | ok info => exact ⟨rfl, rfl, rfl, .inr ⟨_, rfl⟩⟩

/-- C3 counterexample.  Calling normalize_features with an unsupported
method on a fresh transformer fails with an unbound-local error, not the
InvalidConfiguration error of the design document, and the failed call has
already replaced df_transformed by a copy of the input frame, so the state
is not unchanged. -/
theorem c3_counterexample :
    (normalize_features sampleState "invalid" 0).1 =
      .error (.unboundLocalError "scaling_params") ∧
    sampleState.df_transformed = none ∧
    (normalize_features sampleState "invalid" 0).2.df_transformed = some sampleDF ∧
    (normalize_features sampleState "invalid" 0).2.df_transformed ≠
      sampleState.df_transformed ∧
    PyErr.unboundLocalError "scaling_params" ≠ PyErr.invalidConfiguration := by
  refine ⟨rfl, rfl, rfl, ?_, by decide⟩
  intro h
  exact Option.noConfusion h

/-- C3 amended.  For every dataset and every method outside the three
supported names, normalize_features fails before appending a log record
and without producing a dataset, but with an unbound-local error rather
than InvalidConfiguration, and with df_transformed already replaced by a
fresh copy of the input frame; the original frame and the log are
unchanged. -/
theorem c3_amended :
    ∀ (s : TransformerState) (method : String) (now : Nat),
      method ≠ "standard" → method ≠ "minmax" → method ≠ "robust" →
      normalize_features s method now =
        (.error (.unboundLocalError "scaling_params"),
         { s with df_transformed := some s.df }) := by
  intro s method now h1 h2 h3
  simp [normalize_features, h1, h2, h3]

theorem c3_amended_witness :
    normalize_features sampleState "invalid" 0 =
      (.error (.unboundLocalError "scaling_params"),
       { sampleState with df_transformed := some sampleState.df }) :=
  c3_amended sampleState "invalid" 0 (by decide) (by decide) (by decide)

theorem lookup_replace_self (cols : List (String × TCol)) (name : String) (c : TCol)
    (h : name ∈ cols.map Prod.fst) :
    List.lookup name (cols.map (fun p => if p.1 = name then (name, c) else p)) =
      some c := by
  induction cols with
  | nil => simp at h
  | cons a t ih =>
    obtain ⟨k, v⟩ := a
    rw [List.map_cons]
    by_cases hk : (k, v).1 = name
    · rw [if_pos hk]
      simp [List.lookup]
    · rw [if_neg hk]
      have hb : (name == k) = false := beq_eq_false_iff_ne.mpr (Ne.symm hk)
      simp only [List.lookup, hb]
      apply ih
      simp only [List.map_cons, List.mem_cons] at h
      rcases h with h | h
      · exact absurd h.symm hk
      · exact h

theorem lookup_replace_ne (cols : List (String × TCol)) (name other : String)
    (c : TCol) (hne : other ≠ name) :
    List.lookup other (cols.map (fun p => if p.1 = name then (name, c) else p)) =
      List.lookup other cols := by
  induction cols with
  | nil => rfl
  | cons a t ih =>
    obtain ⟨k, v⟩ := a
    rw [List.map_cons]
    by_cases hk : (k, v).1 = name
    · rw [if_pos hk]
      have hb : (other == name) = false := beq_eq_false_iff_ne.mpr hne
      have hb2 : (other == k) = false := by
        rw [show k = name from hk]
        exact hb
      simp only [List.lookup, hb, hb2, ih]
    · rw [if_neg hk]
      simp only [List.lookup]
      cases hok : (other == k) <;> simp [ih]

theorem lookup_append_single_self (cols : List (String × TCol)) (name : String)
    (c : TCol) (h : name ∉ cols.map Prod.fst) :
    List.lookup name (cols ++ [(name, c)]) = some c := by
  induction cols with
  | nil => simp [List.lookup]
  | cons a t ih =>
    obtain ⟨k, v⟩ := a
    simp only [List.map_cons, List.mem_cons, not_or] at h
    have hb : (name == k) = false := beq_eq_false_iff_ne.mpr h.1
    simp only [List.cons_append, List.lookup, hb]
    exact ih h.2

theorem lookup_append_single_ne (cols : List (String × TCol)) (name other : String)
    (c : TCol) (hne : other ≠ name) :
    List.lookup other (cols ++ [(name, c)]) = List.lookup other cols := by
  induction cols with
  | nil =>
    have hb : (other == name) = false := beq_eq_false_iff_ne.mpr hne
    simp [List.lookup, hb]
  | cons a t ih =>
    obtain ⟨k, v⟩ := a
    simp only [List.cons_append, List.lookup]
    cases hok : (other == k) <;> simp [ih]

theorem lookup_isSome_mem (cols : List (String × TCol)) (n : String)
    (h : (List.lookup n cols).isSome = true) : n ∈ cols.map Prod.fst := by
  induction cols with
  | nil => simp [List.lookup] at h
  | cons a t ih =>
    obtain ⟨k, v⟩ := a
    by_cases hk : n = k
    · simp [hk]
    · have hb : (n == k) = false := beq_eq_false_iff_ne.mpr hk
      simp only [List.lookup, hb] at h
      simp [ih h]

theorem TDF.get_set_self (df : TDF) (name : String) (c : TCol) :
    (df.set name c).get name = some c := by
  unfold TDF.set
  split_ifs with h
  · exact lookup_replace_self df.cols name c h
  · exact lookup_append_single_self df.cols name c h

theorem TDF.get_set_ne (df : TDF) (name other : String) (c : TCol)
    (hne : other ≠ name) : (df.set name c).get other = df.get other := by
  unfold TDF.set
  split_ifs with h
  · exact lookup_replace_ne df.cols name other c hne
  · exact lookup_append_single_ne df.cols name other c hne

theorem TDF.names_set_of_mem (df : TDF) (name : String) (c : TCol)
    (h : name ∈ df.names) : (df.set name c).names = df.names := by
  unfold TDF.set
  rw [if_pos h]
  show (df.cols.map _).map _ = _
  rw [List.map_map]
  apply List.map_congr_left
  intro p _
  by_cases hp : p.1 = name
  · simp [hp]
  · simp [hp]

theorem TDF.getNum_mem_names (df : TDF) (n : String) (vs : List ℚ)
    (h : df.getNum n = some vs) : n ∈ df.names := by
  unfold TDF.getNum TDF.get at h
  apply lookup_isSome_mem
  cases hl : List.lookup n df.cols with
  | none => rw [hl] at h; exact absurd h (by simp)
  | some _ => simp

theorem scaleDF_names (df : TDF) (method : String)
    (params : List (String × ℚ × ℚ)) :
    (scaleDF df method params).names = df.names := by
  unfold scaleDF
  suffices h : ∀ (ps : List (String × ℚ × ℚ)) (acc : TDF), acc.names = df.names →
      (ps.foldl (fun acc fp =>
        match df.getNum fp.1 with
        | some vs => acc.set fp.1 (.num (vs.map (applyScale method fp.2)))
        | none => acc) acc).names = df.names by
    exact h params df rfl
  intro ps
  induction ps with
  | nil => intro acc hacc; exact hacc
  | cons fp rest ih =>
    intro acc hacc
    simp only [List.foldl_cons]
    cases hg : df.getNum fp.1 with
    | none => exact ih acc hacc
    | some vs =>
      refine ih (acc.set fp.1 (.num (vs.map (applyScale method fp.2)))) ?_
      rw [TDF.names_set_of_mem]
      · exact hacc
      · rw [hacc]
        exact TDF.getNum_mem_names df fp.1 vs hg

theorem compute_derived_ok_spec (s : TransformerState) (now : Nat)
    (h : exOk (compute_derived_features s now).1 = true) :
    ∃ proc air torque speed wear,
      s.df.getNum "Process temperature [K]" = some proc ∧
      s.df.getNum "Air temperature [K]" = some air ∧
      s.df.getNum "Torque [Nm]" = some torque ∧
      s.df.getNum "Rotational speed [rpm]" = some speed ∧
      s.df.getNum "Tool wear [min]" = some wear ∧
      (compute_derived_features s now).1 = .ok
        ((((s.df_transformed.getD s.df).set "Temp_Difference"
            (.num (List.zipWith (· - ·) proc air))).set "Power_Estimate"
            (.num (List.zipWith (fun t r => t * r * 2 * npPi / 60) torque speed))).set
          "Tool_Wear_Category" (.cat (wear.map wearCategory))) ∧
      (compute_derived_features s now).2.transformation_log =
        s.transformation_log ++ [.featureEngineering now derivedFeatureNames
          "Added temperature difference, power estimate, and tool wear category"] := by
  unfold compute_derived_features at h ⊢
  cases h1 : s.df.getNum "Process temperature [K]" with
  | none => rw [h1] at h; simp [exOk] at h
  | some proc =>
  rw [h1] at h
  cases h2 : s.df.getNum "Air temperature [K]" with
  | none => rw [h2] at h; simp [exOk] at h
  | some air =>
  rw [h2] at h
  cases h3 : s.df.getNum "Torque [Nm]" with
  | none => rw [h3] at h; simp [exOk] at h
  | some torque =>
  rw [h3] at h
  cases h4 : s.df.getNum "Rotational speed [rpm]" with
  | none => rw [h4] at h; simp [exOk] at h
  | some speed =>
  rw [h4] at h
  cases h5 : s.df.getNum "Tool wear [min]" with
  | none => rw [h5] at h; simp [exOk] at h
  | some wear =>
  exact ⟨proc, air, torque, speed, wear, rfl, rfl, rfl, rfl, rfl, rfl, rfl⟩

theorem compute_derived_df_frame (s : TransformerState) (now : Nat) :
    (compute_derived_features s now).2.df = s.df ∧
    (compute_derived_features s now).2.scaler = s.scaler := by
  unfold compute_derived_features
  cases s.df.getNum "Process temperature [K]" with
  | none => exact ⟨rfl, rfl⟩
  | some proc =>
  cases s.df.getNum "Air temperature [K]" with
  | none => exact ⟨rfl, rfl⟩
  | some air =>
  cases s.df.getNum "Torque [Nm]" with
  | none => exact ⟨rfl, rfl⟩
  | some torque =>
  cases s.df.getNum "Rotational speed [rpm]" with
  | none => exact ⟨rfl, rfl⟩
  | some speed =>
  cases s.df.getNum "Tool wear [min]" with
  | none => exact ⟨rfl, rfl⟩
  | some wear => exact ⟨rfl, rfl⟩

theorem normalize_ok_spec (s : TransformerState) (method : String) (now : Nat)
    (h : exOk (normalize_features s method now).1 = true) :
    ∃ params,
      (normalize_features s method now).1 = .ok (scaleDF s.df method params) ∧
      (normalize_features s method now).2.df_transformed =
        some (scaleDF s.df method params) ∧
      (normalize_features s method now).2.df = s.df ∧
      (normalize_features s method now).2.transformation_log =
        s.transformation_log ++
          [.normalization now method CONTINUOUS_FEATURES params] ∧
      (method = "standard" → fitStandard s.df = .ok params) ∧
      (method = "minmax" → fitMinmax s.df = .ok params) ∧
      (method = "robust" → fitRobust s.df = .ok params) := by
  unfold normalize_features at h ⊢
  by_cases h1 : method = "standard"
  · rw [if_pos h1] at h ⊢
    cases hf : fitStandard s.df with
    | error e => rw [hf] at h; simp [exOk] at h
    | ok params =>
      refine ⟨params, rfl, rfl, rfl, rfl, fun _ => rfl, fun hm => ?_, fun hm => ?_⟩
      · exact absurd (h1.symm.trans hm) (by decide)
      · exact absurd (h1.symm.trans hm) (by decide)
  · rw [if_neg h1] at h ⊢
    by_cases h2 : method = "minmax"
    · rw [if_pos h2] at h ⊢
      cases hf : fitMinmax s.df with
      | error e => rw [hf] at h; simp [exOk] at h
      | ok params =>
        refine ⟨params, rfl, rfl, rfl, rfl, fun hm => ?_, fun _ => rfl, fun hm => ?_⟩
        · exact absurd (h2.symm.trans hm) (by decide)
        · exact absurd (h2.symm.trans hm) (by decide)
    · rw [if_neg h2] at h ⊢
      by_cases h3 : method = "robust"
      · rw [if_pos h3] at h ⊢
        cases hf : fitRobust s.df with
        | error e => rw [hf] at h; simp [exOk] at h
        | ok params =>
          refine ⟨params, rfl, rfl, rfl, rfl, fun hm => ?_, fun hm => ?_, fun _ => rfl⟩
          · exact absurd (h3.symm.trans hm) (by decide)
          · exact absurd (h3.symm.trans hm) (by decide)
      · rw [if_neg h3] at h
        simp [exOk] at h

/-- C4 counterexample.  pd.cut with default right-closed bins puts the
boundary value 100 in the Low bucket, where the claim requires Medium, and
gives the value 0 no category at all, where the claim requires Low; the
pipeline on a concrete frame with tool wear 100 records Low. -/
theorem c4_counterexample :
    wearCategory 100 = some "Low" ∧
    wearCategory 100 ≠ some "Medium" ∧
    wearCategory 0 = none ∧
    ((compute_derived_features sampleState 0).2.df_transformed.bind
        (fun d => d.get "Tool_Wear_Category")) = some (.cat [some "Low"]) := by
  refine ⟨by decide, by decide, by decide, by decide⟩

/-- C4 amended.  compute_derived_features assigns the wear category Low
exactly when 0 < w and w is at most 100, Medium exactly when 100 < w and w
is at most 200, and High exactly when 200 < w: bins are open on the left
and closed on the right, and values at or below 0 receive no category; the
category column of the produced frame is the pointwise image of the
original tool-wear column under this binning. -/
theorem c4_amended :
    (∀ w : ℚ,
      (wearCategory w = some "Low" ↔ 0 < w ∧ w ≤ 100) ∧
      (wearCategory w = some "Medium" ↔ 100 < w ∧ w ≤ 200) ∧
      (wearCategory w = some "High" ↔ 200 < w) ∧
      (wearCategory w = none ↔ w ≤ 0)) ∧
    (∀ (s : TransformerState) (now : Nat),
      exOk (compute_derived_features s now).1 = true →
      ∃ ws df', s.df.getNum "Tool wear [min]" = some ws ∧
        (compute_derived_features s now).1 = .ok df' ∧
        df'.get "Tool_Wear_Category" = some (.cat (ws.map wearCategory))) := by
  constructor
  · intro w
    unfold wearCategory
    split_ifs with hc1 hc2 hc3
    · refine ⟨iff_of_true rfl hc1, iff_of_false (by decide) ?_,
        iff_of_false (by decide) ?_, iff_of_false (by decide) ?_⟩
      · exact fun hm => absurd hm.1 (not_lt.mpr hc1.2)
      · exact fun hh => absurd hh (not_lt.mpr (hc1.2.trans (by norm_num)))
      · exact fun hle => absurd hc1.1 (not_lt.mpr hle)
    · refine ⟨iff_of_false (by decide) hc1, iff_of_true rfl hc2,
        iff_of_false (by decide) ?_, iff_of_false (by decide) ?_⟩
      · exact fun hh => absurd hh (not_lt.mpr hc2.2)
      · exact fun hle =>
          absurd (lt_trans (by norm_num : (0 : ℚ) < 100) hc2.1) (not_lt.mpr hle)
    · refine ⟨iff_of_false (by decide) hc1, iff_of_false (by decide) hc2,
        iff_of_true rfl hc3, iff_of_false (by decide) ?_⟩
      exact fun hle =>
        absurd (lt_trans (by norm_num : (0 : ℚ) < 200) hc3) (not_lt.mpr hle)
    · refine ⟨iff_of_false (by decide) hc1, iff_of_false (by decide) hc2,
        iff_of_false (by decide) hc3, iff_of_true rfl ?_⟩
      by_contra hw
      push_neg at hw hc1 hc2
      exact hc3 (hc2 (hc1 hw))
  · intro s now h
    obtain ⟨proc, air, tq, sp, wear, _, _, _, _, h5, hok, _⟩ :=
      compute_derived_ok_spec s now h
    refine ⟨wear, _, h5, hok, ?_⟩
    exact TDF.get_set_self _ "Tool_Wear_Category" _

theorem c4_amended_witness :
    ∃ ws df', sampleState.df.getNum "Tool wear [min]" = some ws ∧
      (compute_derived_features sampleState 0).1 = .ok df' ∧
      df'.get "Tool_Wear_Category" = some (.cat (ws.map wearCategory)) :=
  c4_amended.2 sampleState 0 rfl

/-- C8.  The Power_Estimate column of the frame produced by
compute_derived_features is torque times rotational speed times 2 pi over
60, computed pointwise from the original pre-scaling columns; at torque 42
and 1500 rpm the value is within 0.1 of 6597.3, both for the float value
of pi used by the code and for the real constant. -/
theorem c8_power_estimate :
    (∀ (s : TransformerState) (now : Nat),
      exOk (compute_derived_features s now).1 = true →
      ∃ torque speed df',
        s.df.getNum "Torque [Nm]" = some torque ∧
        s.df.getNum "Rotational speed [rpm]" = some speed ∧
        (compute_derived_features s now).1 = .ok df' ∧
        df'.get "Power_Estimate" =
          some (.num (List.zipWith (fun t r => t * r * 2 * npPi / 60) torque speed))) ∧
    |42 * 1500 * 2 * npPi / 60 - 6597.3| < (1 : ℚ) / 10 ∧
    |(6597.3 : ℝ) - 2100 * Real.pi| < (1 : ℝ) / 10 := by
  refine ⟨?_, ?_, ?_⟩
  · intro s now h
    obtain ⟨proc, air, tq, sp, wear, _, _, h3, h4, _, hok, _⟩ :=
      compute_derived_ok_spec s now h
    refine ⟨tq, sp, _, h3, h4, hok, ?_⟩
    rw [TDF.get_set_ne _ _ _ _ (by decide)]
    exact TDF.get_set_self _ "Power_Estimate" _
  · rw [abs_lt]
    constructor <;> norm_num [npPi]
  · rw [abs_lt]
    constructor
    · nlinarith [Real.pi_lt_d6]
    · nlinarith [Real.pi_gt_d6]

theorem c8_power_estimate_witness :
    ∃ torque speed df',
      sampleState.df.getNum "Torque [Nm]" = some torque ∧
      sampleState.df.getNum "Rotational speed [rpm]" = some speed ∧
      (compute_derived_features sampleState 0).1 = .ok df' ∧
      df'.get "Power_Estimate" =
        some (.num (List.zipWith (fun t r => t * r * 2 * npPi / 60) torque speed)) :=
  c8_power_estimate.1 sampleState 0 rfl

/-- C5.  Every successful detect_outliers, normalize_features or
compute_derived_features call appends exactly one record at the end of the
transformation log, carrying the operation type, the call-time timestamp
and the full parameters; for normalization, the recorded parameters are
the ones fitted by the chosen method on the frame. -/
theorem c5_log_append :
    (∀ (s : TransformerState) (method : String) (threshold : ℚ) (now : Nat),
      exOk (detect_outliers s method threshold now).1 = true →
      ∃ results, (detect_outliers s method threshold now).2.transformation_log =
        s.transformation_log ++ [.outlierDetection now method threshold results]) ∧
    (∀ (s : TransformerState) (method : String) (now : Nat),
      exOk (normalize_features s method now).1 = true →
      ∃ params, (normalize_features s method now).2.transformation_log =
        s.transformation_log ++
          [.normalization now method CONTINUOUS_FEATURES params] ∧
        (method = "standard" → fitStandard s.df = .ok params) ∧
        (method = "minmax" → fitMinmax s.df = .ok params) ∧
        (method = "robust" → fitRobust s.df = .ok params)) ∧
    (∀ (s : TransformerState) (now : Nat),
      exOk (compute_derived_features s now).1 = true →
      (compute_derived_features s now).2.transformation_log =
        s.transformation_log ++ [.featureEngineering now derivedFeatureNames
          "Added temperature difference, power estimate, and tool wear category"]) := by
  refine ⟨?_, ?_, ?_⟩
  · intro s method threshold now h
    unfold detect_outliers at h ⊢
    cases hd : detectLoop s.df method threshold CONTINUOUS_FEATURES with
    | error e => rw [hd] at h; simp [exOk] at h
    | ok info => exact ⟨info.map (fun p => (p.1, p.2.count)), rfl⟩
  · intro s method now h
    obtain ⟨params, _, _, _, hlog, hs, hm, hr⟩ := normalize_ok_spec s method now h
    exact ⟨params, hlog, hs, hm, hr⟩
  · intro s now h
    obtain ⟨_, _, _, _, _, _, _, _, _, _, _, hlog⟩ := compute_derived_ok_spec s now h
    exact hlog

theorem c5_log_append_witness :
    (∃ results, (detect_outliers sampleState "iqr" 1 0).2.transformation_log =
      sampleState.transformation_log ++ [.outlierDetection 0 "iqr" 1 results]) ∧
    (∃ params, (normalize_features sampleState "minmax" 0).2.transformation_log =
      sampleState.transformation_log ++
        [.normalization 0 "minmax" CONTINUOUS_FEATURES params] ∧
      ("minmax" = "standard" → fitStandard sampleState.df = .ok params) ∧
      ("minmax" = "minmax" → fitMinmax sampleState.df = .ok params) ∧
      ("minmax" = "robust" → fitRobust sampleState.df = .ok params)) ∧
    ((compute_derived_features sampleState 0).2.transformation_log =
      sampleState.transformation_log ++ [.featureEngineering 0 derivedFeatureNames
        "Added temperature difference, power estimate, and tool wear category"]) :=
  ⟨c5_log_append.1 sampleState "iqr" 1 0 rfl,
   c5_log_append.2.1 sampleState "minmax" 0 rfl,
   c5_log_append.2.2 sampleState 0 rfl⟩

/-- C10.  normalize_features rebuilds the transformed frame from the
transformer's original input frame and fits its scaling parameters on the
original unscaled values, whatever happened before: the produced frame is
the original frame with its feature columns rescaled by parameters fitted
by the chosen method on the original frame, and it has exactly the
original column set; hence after a prior compute_derived_features call,
any column absent from the original frame (in particular the three derived
columns) is absent from the frame normalize_features returns. -/
theorem c10_normalize_rebuilds_from_original :
    (∀ (s : TransformerState) (method : String) (now : Nat),
      exOk (normalize_features s method now).1 = true →
      ∃ df' params,
        (normalize_features s method now).1 = .ok df' ∧
        df' = scaleDF s.df method params ∧
        df'.names = s.df.names ∧
        (method = "standard" → fitStandard s.df = .ok params) ∧
        (method = "minmax" → fitMinmax s.df = .ok params) ∧
        (method = "robust" → fitRobust s.df = .ok params)) ∧
    (∀ (s : TransformerState) (now1 : Nat) (method : String) (now2 : Nat),
      exOk (normalize_features (compute_derived_features s now1).2 method now2).1
          = true →
      ∃ df' params,
        (normalize_features (compute_derived_features s now1).2 method now2).1 =
          .ok df' ∧
        df' = scaleDF s.df method params ∧
        df'.names = s.df.names ∧
        (method = "standard" → fitStandard s.df = .ok params) ∧
        (method = "minmax" → fitMinmax s.df = .ok params) ∧
        (method = "robust" → fitRobust s.df = .ok params) ∧
        ∀ n, n ∉ s.df.names → n ∉ df'.names) := by
  constructor
  · intro s method now h
    obtain ⟨params, hok, _, _, _, hs, hm, hr⟩ := normalize_ok_spec s method now h
    exact ⟨_, params, hok, rfl, scaleDF_names _ _ _, hs, hm, hr⟩
  · intro s now1 method now2 h
    obtain ⟨params, hok, _, _, _, hs, hm, hr⟩ := normalize_ok_spec _ method now2 h
    have hdf : (compute_derived_features s now1).2.df = s.df :=
      (compute_derived_df_frame s now1).1
    rw [hdf] at hok hs hm hr
    refine ⟨_, params, hok, rfl, scaleDF_names _ _ _, hs, hm, hr, ?_⟩
    intro n hn
    rw [scaleDF_names]
    exact hn

theorem c10_normalize_rebuilds_witness :
    (∃ df' params,
      (normalize_features sampleState "minmax" 0).1 = .ok df' ∧
      df' = scaleDF sampleState.df "minmax" params ∧
      df'.names = sampleState.df.names ∧
      ("minmax" = "standard" → fitStandard sampleState.df = .ok params) ∧
      ("minmax" = "minmax" → fitMinmax sampleState.df = .ok params) ∧
      ("minmax" = "robust" → fitRobust sampleState.df = .ok params)) ∧
    (∃ df' params,
      (normalize_features (compute_derived_features sampleState 0).2 "minmax" 1).1 =
        .ok df' ∧
      df' = scaleDF sampleState.df "minmax" params ∧
      df'.names = sampleState.df.names ∧
      ("minmax" = "standard" → fitStandard sampleState.df = .ok params) ∧
      ("minmax" = "minmax" → fitMinmax sampleState.df = .ok params) ∧
      ("minmax" = "robust" → fitRobust sampleState.df = .ok params) ∧
      ∀ n, n ∉ sampleState.df.names → n ∉ df'.names) :=
  ⟨c10_normalize_rebuilds_from_original.1 sampleState "minmax" 0 rfl,
   c10_normalize_rebuilds_from_original.2 sampleState 0 "minmax" 1 rfl⟩

theorem c9_amended_witness :
    (log_workflow_step (provenanceInit "P" 0) "s1" "d1" [] "completed"
        1).curation_workflow =
      (provenanceInit "P" 0).curation_workflow ++
        [⟨"s1", "d1", 1, "completed", []⟩] ∧
    (⟨"s1", "d1", 1, "completed", []⟩ : StepRecord) ∈
      (log_workflow_step
        (log_workflow_step (provenanceInit "P" 0) "s1" "d1" [] "completed" 1)
        "s2" "d2" [] "completed" 2).curation_workflow :=
  ⟨(c9_amended.2.1 (provenanceInit "P" 0) "s1" "d1" [] "completed" 1).1,
   (c9_amended.2.1
      (log_workflow_step (provenanceInit "P" 0) "s1" "d1" [] "completed" 1)
      "s2" "d2" [] "completed" 2).2.1 ⟨"s1", "d1", 1, "completed", []⟩ (by decide)⟩

theorem sorted_getD_le (s : List ℚ) (hs : List.Sorted (· ≤ ·) s) (i j : Nat)
    (hij : i ≤ j) (hj : j < s.length) : s.getD i 0 ≤ s.getD j 0 := by
  have hi : i < s.length := lt_of_le_of_lt hij hj
  rw [List.getD_eq_getElem s 0 hi, List.getD_eq_getElem s 0 hj]
  rcases lt_or_eq_of_le hij with h | h
  · have := hs.rel_get_of_lt (show (⟨i, hi⟩ : Fin s.length) < ⟨j, hj⟩ from h)
    simpa using this
  · subst h
    exact le_refl _

theorem interp_pieces_le (s : List ℚ) (hs : List.Sorted (· ≤ ·) s) (i : Nat) :
    s.getD i 0 ≤ s.getD (i + 1) (s.getD i 0) := by
  by_cases h : i + 1 < s.length
  · have hconv : s.getD (i + 1) (s.getD i 0) = s.getD (i + 1) 0 := by
      rw [List.getD_eq_getElem s _ h, List.getD_eq_getElem s 0 h]
    rw [hconv]
    exact sorted_getD_le s hs i (i + 1) (Nat.le_succ i) h
  · rw [List.getD_eq_default _ _ (le_of_not_lt h)]

theorem interpAt_mono (s : List ℚ) (hs : List.Sorted (· ≤ ·) s)
    (p q : ℚ) (hp0 : 0 ≤ p) (hpq : p ≤ q) (hub : q ≤ (s.length : ℚ) - 1) :
    interpAt s p ≤ interpAt s q := by
  have hq0 : 0 ≤ q := hp0.trans hpq
  have hfp0 : (0 : ℤ) ≤ ⌊p⌋ := Int.floor_nonneg.mpr hp0
  have hfq0 : (0 : ℤ) ≤ ⌊q⌋ := Int.floor_nonneg.mpr hq0
  have hflo : ⌊p⌋ ≤ ⌊q⌋ := Int.floor_le_floor hpq
  have hlen : 1 ≤ s.length := by
    rcases Nat.eq_zero_or_pos s.length with h0 | h0
    · exfalso
      rw [h0] at hub
      norm_num at hub
      linarith
    · exact h0
  have hjlt : (⌊q⌋).toNat < s.length := by
    have h1 : (⌊q⌋ : ℚ) ≤ (s.length : ℚ) - 1 := (Int.floor_le q).trans hub
    have h2 : (⌊q⌋ : ℤ) ≤ (s.length : ℤ) - 1 := by exact_mod_cast h1
    omega
  simp only [interpAt]
  set i := (⌊p⌋).toNat with hidef
  set j := (⌊q⌋).toNat with hjdef
  have hij : i ≤ j := by omega
  rcases lt_or_eq_of_le hij with hlt | heq
  · -- the two positions lie in different segments
    have hab1 : s.getD i 0 ≤ s.getD (i + 1) (s.getD i 0) := interp_pieces_le s hs i
    have hab2 : s.getD j 0 ≤ s.getD (j + 1) (s.getD j 0) := interp_pieces_le s hs j
    have h1 : s.getD i 0 + Int.fract p * (s.getD (i + 1) (s.getD i 0) - s.getD i 0) ≤
        s.getD (i + 1) (s.getD i 0) := by
      have hf1 : Int.fract p ≤ 1 := le_of_lt (Int.fract_lt_one p)
      nlinarith [mul_le_mul_of_nonneg_right hf1 (sub_nonneg.mpr hab1)]
    have h2 : s.getD (i + 1) (s.getD i 0) ≤ s.getD j 0 := by
      by_cases hi1 : i + 1 < s.length
      · have hconv : s.getD (i + 1) (s.getD i 0) = s.getD (i + 1) 0 := by
          rw [List.getD_eq_getElem s _ hi1, List.getD_eq_getElem s 0 hi1]
        rw [hconv]
        exact sorted_getD_le s hs (i + 1) j hlt hjlt
      · rw [List.getD_eq_default _ _ (le_of_not_lt hi1)]
        exact sorted_getD_le s hs i j (le_of_lt hlt) hjlt
    have h3 : s.getD j 0 ≤
        s.getD j 0 + Int.fract q * (s.getD (j + 1) (s.getD j 0) - s.getD j 0) := by
      nlinarith [mul_nonneg (Int.fract_nonneg q) (sub_nonneg.mpr hab2)]
    linarith
  · -- same segment: only the fractional part grows
    rw [heq]
    have hfeq : ⌊p⌋ = ⌊q⌋ := by omega
    have hab : s.getD j 0 ≤ s.getD (j + 1) (s.getD j 0) := interp_pieces_le s hs j
    have hfr : Int.fract p ≤ Int.fract q := by
      unfold Int.fract
      rw [hfeq]
      linarith
    nlinarith [mul_le_mul_of_nonneg_right hfr (sub_nonneg.mpr hab)]

theorem quantile_le_quantile (xs : List ℚ) (q1 q2 : ℚ) (h0 : 0 ≤ q1)
    (h12 : q1 ≤ q2) (h1 : q2 ≤ 1) : quantile xs q1 ≤ quantile xs q2 := by
  unfold quantile
  split_ifs with hxs
  · exact le_refl 0
  · have hlen : 1 ≤ xs.length := List.length_pos.mpr hxs
    have hlenq : (1 : ℚ) ≤ (xs.length : ℚ) := by exact_mod_cast hlen
    have hnn : (0 : ℚ) ≤ (xs.length : ℚ) - 1 := by linarith
    have hslen : (xs.insertionSort (· ≤ ·)).length = xs.length :=
      (List.perm_insertionSort (· ≤ ·) xs).length_eq
    apply interpAt_mono _ (List.sorted_insertionSort (· ≤ ·) xs)
    · exact mul_nonneg h0 hnn
    · exact mul_le_mul_of_nonneg_right h12 hnn
    · rw [hslen]
      have := mul_le_mul_of_nonneg_right h1 hnn
      simpa using this

/-- C6.  The number of rows flagged by the IQR rule of detect_outliers is
antitone in the threshold: for any feature values and any pair of
thresholds, the larger threshold flags at most as many rows; in particular
threshold 3.0 never flags more rows than threshold 1.5. -/
theorem c6_iqr_flag_antitone :
    ∀ (vs : List ℚ) (t1 t2 : ℚ), t1 ≤ t2 →
      (iqrFlag vs t2).length ≤ (iqrFlag vs t1).length := by
  intro vs t1 t2 h12
  have hq : quantile vs (1/4) ≤ quantile vs (3/4) :=
    quantile_le_quantile vs (1/4) (3/4) (by norm_num) (by norm_num) (by norm_num)
  simp only [iqrFlag, ← List.countP_eq_length_filter]
  apply List.countP_mono_left
  intro x _ hflag
  have hmul : t1 * (quantile vs (3/4) - quantile vs (1/4)) ≤
      t2 * (quantile vs (3/4) - quantile vs (1/4)) :=
    mul_le_mul_of_nonneg_right h12 (sub_nonneg.mpr hq)
  simp only [Bool.or_eq_true, decide_eq_true_eq] at hflag ⊢
  rcases hflag with hlo | hhi
  · left; linarith
  · right; linarith

theorem c6_iqr_flag_antitone_witness :
    (3 / 2 : ℚ) ≤ 3 ∧
    (iqrFlag [1, 2, 3, 100] 3).length ≤ (iqrFlag [1, 2, 3, 100] (3 / 2)).length :=
  ⟨by simp, c6_iqr_flag_antitone [1, 2, 3, 100] (3 / 2) 3 (by simp)⟩
